import Mathlib

/-!
Verification development for the HYDRA market-intelligence backend.

This file gives a shallow embedding, in Lean 4, of the parts of the
backend relevant to the checked properties:

* `backend/blowup_detector.py` — the blowup scorer (`BlowupDetector.calculate`,
  `_determine_recommendation`), the VIX component fetcher scoring rule, and the
  process-wide HTTP fetch cache `_get_cached`;
* `backend/hydra_signal_detection.py` — the connector base class (`BaseConnector._get`)
  and the signal store (`SignalOrchestrator.scan_all`, `get_active_signals`);
* `backend/weight_calibrator.py` — the weight re-derivation in `WeightCalibrator.calibrate`;
* `backend/predator_intelligence.py`, `backend/gex_engine.py`, `backend/flow_decoder.py`,
  `backend/dark_pool_mapper.py`, `backend/sequence_matcher.py` — the conviction-modifier
  aggregation.

Python floats are embedded as rationals (`ℚ`); all concrete inputs used in the
theorems below are chosen so that binary floating point and exact rational
arithmetic agree, and so that no rounding operation meets an exact tie.
Python `dict`s keyed by strings are embedded as association lists preserving
insertion order; fallible calls return `Option`.
-/

namespace Hydra

/-- Python `int(q)` on a float: truncation toward zero. -/
def pyInt (q : ℚ) : ℤ := if 0 ≤ q then ⌊q⌋ else ⌈q⌉

/-- Python `round(q, n)`: round to `n` decimal digits.  (CPython rounds exact
ties to even; every concrete value this file evaluates it on is non-tied, so
the tie-breaking convention is irrelevant and we use `round`.) -/
def pyRound (n : ℕ) (q : ℚ) : ℚ := (round (q * 10 ^ n) : ℤ) / 10 ^ n

/-- `dict.get(k, d)` on an insertion-ordered association list. -/
def dictGet (l : List (String × ℚ)) (k : String) (d : ℚ) : ℚ :=
  ((l.lookup k).getD d)

-- ═══════════════════════════════════════════════════════════════
--  blowup_detector.py : data structures and constants
-- ═══════════════════════════════════════════════════════════════

inductive Direction where
  | BULLISH | BEARISH | NEUTRAL
deriving DecidableEq, Repr

inductive Recommendation where
  | NO_TRADE | SCALP_ONLY | STRADDLE | DIRECTIONAL_PUT | DIRECTIONAL_CALL
deriving DecidableEq, Repr

/-- `DEFAULT_WEIGHTS` from `blowup_detector.py`. -/
def DEFAULT_WEIGHTS : List (String × ℚ) :=
  [("vix_inversion", 20/100), ("flow_imbalance", 20/100), ("crypto_cascade", 10/100),
   ("premarket_gap", 10/100), ("event_proximity", 15/100), ("cross_asset", 10/100),
   ("volume_surge", 10/100), ("breadth", 5/100)]

/-- `THRESHOLDS` from `blowup_detector.py` (calm, elevated, high). -/
def THRESHOLDS_calm : ℤ := 30
def THRESHOLDS_elevated : ℤ := 50
def THRESHOLDS_high : ℤ := 70

/-- One `ComponentScore` (name, raw_value, weight, weighted_value, healthy);
the `source` and `details` fields play no part in the checked properties. -/
structure ComponentScore where
  name : String
  raw_value : ℚ
  weight : ℚ
  weighted_value : ℚ
  healthy : Bool
deriving DecidableEq, Repr

/-- The outcome of one component fetcher inside `BlowupDetector.calculate`:
`some (raw, healthy)` when `fetcher.fetch()` returns, `none` when it raises. -/
abbrev FetchOutcome := Option (ℚ × Bool)

/-- The per-component body of the fetch loop in `BlowupDetector.calculate`
(lines 1040–1062): on success the weight is replaced by
`self.weights.get(name, DEFAULT_WEIGHTS.get(name, 0.1))` and the weighted value
recomputed; on an exception a `raw=0, healthy=False` placeholder is built with
weight `self.weights.get(name, 0.1)`. -/
def buildComponent (weights : List (String × ℚ)) (name : String)
    (outcome : FetchOutcome) : ComponentScore :=
  match outcome with
  | some (raw, h) =>
      let w := dictGet weights name (dictGet DEFAULT_WEIGHTS name (1/10))
      ⟨name, raw, w, raw * w, h⟩
  | none =>
      ⟨name, 0, dictGet weights name (1/10), 0, false⟩

/-- The component list produced by one tick of `BlowupDetector.calculate`. -/
def buildComponents (weights : List (String × ℚ))
    (outcomes : List (String × FetchOutcome)) : List ComponentScore :=
  outcomes.map (fun p => buildComponent weights p.1 p.2)

/-- `total_weighted = sum(cs.weighted_value for cs in component_scores)`. -/
def totalWeighted (cs : List ComponentScore) : ℚ :=
  (cs.map (·.weighted_value)).sum

/-- `blowup_probability = int(min(100, total_weighted * 100))`
(`blowup_detector.py` line 1066). -/
def blowupProbability (cs : List ComponentScore) : ℤ :=
  pyInt (min 100 (totalWeighted cs * 100))

/-- `confidence = healthy_count / len(component_scores)` (line 1070). -/
def blowupConfidence (cs : List ComponentScore) : ℚ :=
  (cs.countP (·.healthy) : ℚ) / (cs.length : ℚ)

/-- The trigger names recorded by `calculate`: components with `raw_value > 0.3`
(the recorded string is `"name:raw"`; only the name part matters downstream). -/
def blowupTriggers (cs : List ComponentScore) : List String :=
  (cs.filter (fun c => (3/10 : ℚ) < c.raw_value)).map (·.name)

/-- The probability the spec text claims: `clamp(round(100 · Σ weighted), 0, 100)`.
Stated from the spec's words, for comparison against `blowupProbability`,
which is translated from the source. -/
def specClaimedProbability (cs : List ComponentScore) : ℤ :=
  max 0 (min 100 (round (100 * totalWeighted cs) : ℤ))

/-- `BlowupDetector._determine_recommendation` (lines 1173–1190), verbatim
branch structure. -/
def determineRecommendation (score : ℤ) (direction : Direction)
    (confidence : ℚ) : Recommendation :=
  if confidence < 1/2 then .NO_TRADE
  else if score < THRESHOLDS_calm then .SCALP_ONLY
  else if score < THRESHOLDS_elevated then .SCALP_ONLY
  else if score < THRESHOLDS_high then .STRADDLE
  else match direction with
    | .BEARISH => .DIRECTIONAL_PUT
    | .BULLISH => .DIRECTIONAL_CALL
    | .NEUTRAL => .STRADDLE

-- ═══════════════════════════════════════════════════════════════
--  blowup_detector.py : VIXTermStructure.fetch scoring rule
-- ═══════════════════════════════════════════════════════════════

/-- The scoring core of `VIXTermStructure.fetch` (lines 244–270): the raw
component value as a function of the previous day's VIX open and close.
`vix_change = (close − open)/open` when `open > 0` else `0`; piecewise level
score; rising-VIX boost capped at 1. -/
def vixInversionScore (vix_open vix_close : ℚ) : ℚ :=
  let vix_change : ℚ := if 0 < vix_open then (vix_close - vix_open) / vix_open else 0
  let score : ℚ :=
    if 35 < vix_close then 1
    else if 30 < vix_close then 8/10
    else if 25 < vix_close then 5/10
    else if 22 < vix_close then 3/10
    else if 20 < vix_close then 15/100
    else 0
  if 10/100 < vix_change then min 1 (score + 3/10)
  else if 5/100 < vix_change then min 1 (score + 15/100)
  else score

-- ═══════════════════════════════════════════════════════════════
--  blowup_detector.py : _get_cached (HTTP fetch layer)
-- ═══════════════════════════════════════════════════════════════

/-- `CACHE_TTL = 60` seconds. -/
def CACHE_TTL : ℚ := 60

/-- One entry of `_response_cache`: `(timestamp, data)`. -/
structure CacheEntry where
  time : ℚ
  data : String
deriving DecidableEq, Repr

/-- `_response_cache`, keyed by `url + json.dumps(params, sort_keys=True)`. -/
abbrev Cache := List (String × CacheEntry)

/-- Store `cache[key] = entry`, replacing any existing binding in place and
appending a new key at the end, as a Python `dict` assignment does. -/
def cacheStore (cache : Cache) (key : String) (entry : CacheEntry) : Cache :=
  if (cache.lookup key).isSome then
    cache.map (fun p => if p.1 = key then (key, entry) else p)
  else
    cache ++ [(key, entry)]

/-- What the network does when `requests.get` is issued: an HTTP response with
a status code and, for bodies that parse as JSON, the decoded body (`none`
models `resp.json()` raising), or a transport failure (exception). -/
inductive NetOutcome where
  | response (status : ℕ) (body : Option String)
  | failure
deriving DecidableEq, Repr

/-- The value of one `_get_cached` call: the returned body (or absent), the
cache afterwards, and whether a network request was issued. -/
structure FetchStep where
  result : Option String
  cache : Cache
  requested : Bool
deriving DecidableEq, Repr

/-- `_get_cached` (`blowup_detector.py` lines 141–176).  A fresh cache entry
(younger than `CACHE_TTL`) is returned without network I/O.  Otherwise a
request is made: HTTP 200 with a JSON body caches and returns it; HTTP 200
whose body fails to parse raises inside the `try` and falls to the handler,
which returns the cached body if present; HTTP 429 returns the cached body if
present, however stale; any other status returns absent; a transport failure
returns the cached body if present.  The function never raises. -/
def getCached (cache : Cache) (key : String) (now : ℚ) (net : NetOutcome) :
    FetchStep :=
  let stale : FetchStep :=
    match net with
    | .response status body =>
        if status = 200 then
          match body with
          | some data => ⟨some data, cacheStore cache key ⟨now, data⟩, true⟩
          | none => ⟨(cache.lookup key).map (·.data), cache, true⟩
        else if status = 429 then
          ⟨(cache.lookup key).map (·.data), cache, true⟩
        else
          ⟨none, cache, true⟩
    | .failure =>
        ⟨(cache.lookup key).map (·.data), cache, true⟩
  match cache.lookup key with
  | some e => if now - e.time < CACHE_TTL then ⟨some e.data, cache, false⟩ else stale
  | none => stale

/-- A sequence of `_get_cached` calls for one `(url, params)` key: each call
sees the cache left by the previous one.  Returns the list of results and the
number of network requests issued. -/
def runCalls (cache : Cache) (key : String) :
    List (ℚ × NetOutcome) → List (Option String) × Cache × ℕ
  | [] => ([], cache, 0)
  | (t, net) :: rest =>
      let step := getCached cache key t net
      let tail := runCalls step.cache key rest
      (step.result :: tail.1, tail.2.1, (if step.requested then 1 else 0) + tail.2.2)

-- ═══════════════════════════════════════════════════════════════
--  hydra_signal_detection.py : signals and the signal store
-- ═══════════════════════════════════════════════════════════════

inductive SignalPriority where
  | CRITICAL | HIGH | MEDIUM | LOW
deriving DecidableEq, Repr

/-- `priority.value` , the string carried by the enum. -/
def SignalPriority.value : SignalPriority → String
  | .CRITICAL => "CRITICAL"
  | .HIGH => "HIGH"
  | .MEDIUM => "MEDIUM"
  | .LOW => "LOW"

/-- The `priority_order` dict of `scan_all` / `get_active_signals`. -/
def priorityLevel : SignalPriority → ℕ
  | .CRITICAL => 0
  | .HIGH => 1
  | .MEDIUM => 2
  | .LOW => 3

/-- `priority_order.get(min_priority, 3)` in `get_active_signals`:
unknown strings fall back to level 3 (LOW). -/
def priorityLevelOfString (s : String) : ℕ :=
  if s == "CRITICAL" then 0
  else if s == "HIGH" then 1
  else if s == "MEDIUM" then 2
  else if s == "LOW" then 3
  else 3

/-- A `DetectedSignal`, restricted to the fields the store consults.
`detected_at` is a UTC timestamp in seconds; `ttl_hours` in hours. -/
structure StoredSignal where
  id : String
  category : String
  priority : SignalPriority
  strength : ℚ
  detected_at : ℚ
  ttl_hours : ℚ
deriving DecidableEq, Repr

/-- `DetectedSignal.is_expired` (lines 99–102): age in seconds exceeds
`ttl_hours * 3600`, evaluated against the wall clock `now`. -/
def isExpired (now : ℚ) (s : StoredSignal) : Bool :=
  decide (s.ttl_hours * 3600 < now - s.detected_at)

/-- The expiry sweep in `scan_all` (line 2879):
`self.all_signals = [s for s in self.all_signals if not s.is_expired]`. -/
def pruneExpired (now : ℚ) (signals : List StoredSignal) : List StoredSignal :=
  signals.filter (fun s => !isExpired now s)

/-- `SignalOrchestrator.get_active_signals` (lines 2897–2909).  The optional
string parameters model Python's `None` and `""` alike as `""` (both falsy):
a non-empty `category` filters by `category.value`; a non-empty
`min_priority` keeps signals whose priority level is at most
`priority_order.get(min_priority, 3)`.  No expiry check is applied. -/
def getActiveSignals (signals : List StoredSignal) (category : String)
    (min_priority : String) : List StoredSignal :=
  let s1 := if category ≠ "" then signals.filter (fun s => s.category == category)
            else signals
  if min_priority ≠ "" then
    let minLevel := priorityLevelOfString min_priority
    s1.filter (fun s => priorityLevel s.priority ≤ minLevel)
  else s1

-- ═══════════════════════════════════════════════════════════════
--  hydra_signal_detection.py : BaseConnector and the scan sweep
-- ═══════════════════════════════════════════════════════════════

/-- `BaseConnector._get` (lines 144–157), acting on the connector's
`error_count`: HTTP 200 with a JSON body returns it, leaving `error_count`
unchanged; HTTP 200 whose body fails to parse raises in `resp.json()`, is
caught, and increments `error_count`; any other status logs and returns
absent without touching `error_count`; a transport failure is caught and
increments `error_count`. -/
def connectorGet (error_count : ℕ) (net : NetOutcome) : Option String × ℕ :=
  match net with
  | .response status body =>
      if status = 200 then
        match body with
        | some data => (some data, error_count)
        | none => (none, error_count + 1)
      else (none, error_count)
  | .failure => (none, error_count + 1)

/-- The per-connector body of `SignalOrchestrator.scan_all` (lines 2863–2876):
`fetch_signals` either returns signals (which are deduplicated against the
store by id before insertion) or raises, in which case the exception is caught,
`error_count` is incremented, and no signals are added.  Returns
`(new signals, store contents, error_count)`. -/
def scanConnectorStep (allSignals : List StoredSignal) (error_count : ℕ)
    (outcome : Except Unit (List StoredSignal)) :
    List StoredSignal × List StoredSignal × ℕ :=
  match outcome with
  | .error _ => ([], allSignals, error_count + 1)
  | .ok sigs =>
      let step := sigs.foldl
        (fun (acc : List StoredSignal × List StoredSignal) sig =>
          if (acc.2.any (fun s => s.id == sig.id)) then acc
          else (acc.1 ++ [sig], acc.2 ++ [sig]))
        ([], allSignals)
      (step.1, step.2, error_count)

-- ═══════════════════════════════════════════════════════════════
--  weight_calibrator.py : WeightCalibrator.calibrate
-- ═══════════════════════════════════════════════════════════════

/-- `MIN_TRADES_FOR_CALIBRATION = 20`. -/
def MIN_TRADES_FOR_CALIBRATION : ℕ := 20

/-- A `trade_feedback` row, restricted to the columns `calibrate` consults
for the weight re-derivation: `mode`, `pnl_percent` and the decoded
`triggers` list. -/
structure TradeRow where
  mode : String
  pnl_percent : ℚ
  triggers : List String
deriving DecidableEq, Repr

/-- `trigger.split(":")[0] if ":" in trigger else trigger`, computed on the
character list. -/
def triggerName (t : String) : String :=
  if t.data.contains ':' then String.mk (t.data.takeWhile (fun c => c ≠ ':'))
  else t

/-- One accumulator cell of the per-trigger `defaultdict`. -/
structure TrigStat where
  wins : ℕ
  total : ℕ
  total_pnl : ℚ
deriving DecidableEq, Repr

/-- One `trigger_stats[name]` update (wins / total / total_pnl), creating the
entry at the end on first access as a `defaultdict` does. -/
def bumpStat (stats : List (String × TrigStat)) (name : String) (win : Bool)
    (pnl : ℚ) : List (String × TrigStat) :=
  if (stats.lookup name).isSome then
    stats.map (fun p =>
      if p.1 == name then
        (p.1, ⟨p.2.wins + (if win then 1 else 0), p.2.total + 1, p.2.total_pnl + pnl⟩)
      else p)
  else
    stats ++ [(name, ⟨(if win then 1 else 0), 1, pnl⟩)]

/-- The `trigger_stats` accumulation loop of `calibrate` (lines 333–346). -/
def triggerStats (trades : List TradeRow) : List (String × TrigStat) :=
  trades.foldl
    (fun acc trade =>
      (trade.triggers.map triggerName).foldl
        (fun acc2 name =>
          bumpStat acc2 name (decide (0 < trade.pnl_percent)) trade.pnl_percent)
        acc)
    []

/-- The `trigger_performance` computation of `calibrate` (lines 349–363),
restricted to the `f1_score` column, the only one consumed by the weight
update: per trigger, `precision = wins/total`,
`recall = wins / max(1, #winning trades)`, harmonic mean, rounded to 3
decimals. -/
def triggerF1s (trades : List TradeRow) : List (String × ℚ) :=
  let winners : ℕ := trades.countP (fun t => decide (0 < t.pnl_percent))
  (triggerStats trades).filterMap (fun p =>
    if 0 < p.2.total then
      let prec : ℚ := (p.2.wins : ℚ) / (p.2.total : ℚ)
      let recl : ℚ := (p.2.wins : ℚ) / (max 1 winners : ℕ)
      let f1 : ℚ :=
        if 0 < prec + recl then 2 * (prec * recl) / (prec + recl)
        else 0
      some (p.1, pyRound 3 f1)
    else none)

/-- The `new_weights` derivation of `calibrate` (lines 365–382): start from a
copy of the current weights; when some trigger has positive total F1, replace
each triggered key present in the map by its normalized F1 (rounded to 3
decimals) and renormalize the whole map by its sum (rounded to 3 decimals). -/
def calibNewWeights (oldW : List (String × ℚ)) (trades : List TradeRow) :
    List (String × ℚ) :=
  let perf := triggerF1s trades
  if perf ≠ [] then
    let total_f1 := (perf.map (·.2)).sum
    if 0 < total_f1 then
      let nw1 := oldW.map (fun p =>
        match perf.lookup p.1 with
        | some f1 => (p.1, pyRound 3 (f1 / total_f1))
        | none => p)
      let weight_sum := (nw1.map (·.2)).sum
      if 0 < weight_sum then nw1.map (fun p => (p.1, pyRound 3 (p.2 / weight_sum)))
      else nw1
    else oldW
  else oldW

/-- The value of one `calibrate` run: the produced `new_weights` and whether
they were persisted (`Σ |new − old| > 0.1`). -/
structure CalibOutcome where
  new_weights : List (String × ℚ)
  persisted : Bool
deriving DecidableEq, Repr

/-- `WeightCalibrator.calibrate` (lines 306–479), restricted to its effect on
weights: select the BLOWUP-mode rows, skip below the 20-row gate (returning
`none`), derive `new_weights`, and persist exactly when the total absolute
change over the old keys exceeds `0.1`. -/
def calibrate (currentWeights : List (String × ℚ)) (rows : List TradeRow) :
    Option CalibOutcome :=
  let trades := rows.filter (fun t => t.mode == "BLOWUP")
  if trades.length < MIN_TRADES_FOR_CALIBRATION then none
  else
    let nw := calibNewWeights currentWeights trades
    let changes := (currentWeights.map (fun p => |dictGet nw p.1 0 - p.2|)).sum
    some ⟨nw, decide ((1/10 : ℚ) < changes)⟩

/-- The calibrator's `current_weights` after one `calibrate` run:
changed only when the run persisted (`_save_weights` sets
`self.current_weights = weights`). -/
def calibratePost (currentWeights : List (String × ℚ)) (rows : List TradeRow) :
    List (String × ℚ) :=
  match calibrate currentWeights rows with
  | some o => if o.persisted then o.new_weights else currentWeights
  | none => currentWeights

-- ═══════════════════════════════════════════════════════════════
--  Conviction modifiers (gex_engine / flow_decoder / dark_pool_mapper
--  / sequence_matcher), aggregated by predator_intelligence
-- ═══════════════════════════════════════════════════════════════

/-- `GEXSnapshot`, restricted to the fields `get_conviction_modifier` reads. -/
structure GexSnap where
  regime : String
  total_gex : ℚ
  flip_distance_pct : ℚ
  charm_flow_per_hour : ℚ
deriving DecidableEq, Repr

/-- `FlowSnapshot`, restricted to the fields `get_conviction_modifier` reads. -/
structure FlowSnap where
  institutional_bias : String
  sweep_count_calls : ℕ
  sweep_count_puts : ℕ
deriving DecidableEq, Repr

/-- `DarkPoolSnapshot`, restricted to the fields `get_conviction_modifier`
reads.  `nearest_support`/`nearest_resistance` are `None`-able prices. -/
structure DpSnap where
  nearest_support : Option ℚ
  nearest_resistance : Option ℚ
  support_strength : String
  resistance_strength : String
  buy_volume : ℕ
  sell_volume : ℕ
deriving DecidableEq, Repr

/-- The return dict of a subsystem conviction rule.  `reasons = none` models a
dict carrying no `"reasons"` key at all (the absent-GEX branch returns
`{"modifier": 0, "reason": ...}` — the singular key — so the aggregator's
`gex_mod.get("reasons", [])` yields `[]`). -/
structure ConvictionMod where
  modifier : ℤ
  reasons : Option (List String)
deriving DecidableEq, Repr

/-- `GEX_THRESHOLDS["high_positive"]`. -/
def GEX_high_positive : ℚ := 500000000

/-- `GEXEngine.get_conviction_modifier` (gex_engine.py lines 600–643).
`nowMinutesET` is the wall-clock time of day in minutes (the code compares
`datetime.now().time()` to 15:00, i.e. minute 900). -/
def gexConvictionModifier (snap : Option GexSnap) (nowMinutesET : ℚ) :
    ConvictionMod :=
  match snap with
  | none => ⟨0, none⟩
  | some g =>
      let s1 : ℤ × List String :=
        if g.regime = "NEGATIVE" then
          (10, ["Negative GEX favors directional trades"])
        else if g.regime = "POSITIVE" ∧ GEX_high_positive < |g.total_gex| then
          (-15, ["High positive GEX suppresses directional moves"])
        else (0, [])
      let s2 : ℤ × List String :=
        if g.flip_distance_pct < 5/1000 then
          (s1.1 + 5, s1.2 ++ ["Near gamma flip - explosive move possible"])
        else s1
      let s3 : ℤ × List String :=
        if 900 ≤ nowMinutesET ∧ (5000000 : ℚ) < |g.charm_flow_per_hour| then
          (s2.1 + 5, s2.2 ++ ["High charm flow - accelerated moves into close"])
        else s2
      ⟨s3.1, some s3.2⟩

/-- Python substring membership `sub in s`, computed on the character lists. -/
def containsSub (sub s : String) : Bool :=
  decide (sub.data <:+: s.data)

/-- Python `"AGGRESSIVELY" in s`. -/
def containsAggressively (s : String) : Bool :=
  containsSub "AGGRESSIVELY" s

/-- `FlowDecoder.get_conviction_modifier` (flow_decoder.py lines 375–422). -/
def flowConvictionModifier (snap : Option FlowSnap) (trade_direction : String) :
    ConvictionMod :=
  match snap with
  | none => ⟨0, some ["No flow data"]⟩
  | some flow =>
      let bias := flow.institutional_bias
      let s1 : ℤ × List String :=
        if trade_direction = "BULLISH" then
          if bias = "AGGRESSIVELY_BULLISH" ∨ bias = "MODERATELY_BULLISH" then
            ((if containsAggressively bias then 10 else 5), ["Flow aligns: " ++ bias])
          else if bias = "AGGRESSIVELY_BEARISH" ∨ bias = "MODERATELY_BEARISH" then
            ((if containsAggressively bias then -10 else -5), ["Flow conflicts: " ++ bias])
          else (0, [])
        else if trade_direction = "BEARISH" then
          if bias = "AGGRESSIVELY_BEARISH" ∨ bias = "MODERATELY_BEARISH" then
            ((if containsAggressively bias then 10 else 5), ["Flow aligns: " ++ bias])
          else if bias = "AGGRESSIVELY_BULLISH" ∨ bias = "MODERATELY_BULLISH" then
            ((if containsAggressively bias then -10 else -5), ["Flow conflicts: " ++ bias])
          else (0, [])
        else (0, [])
      let s2 : ℤ × List String :=
        if trade_direction = "BULLISH" ∧
            flow.sweep_count_puts * 2 < flow.sweep_count_calls then
          (s1.1 + 5, s1.2 ++ ["Call sweeps dominant (" ++ toString flow.sweep_count_calls
            ++ " vs " ++ toString flow.sweep_count_puts ++ ")"])
        else if trade_direction = "BEARISH" ∧
            flow.sweep_count_calls * 2 < flow.sweep_count_puts then
          (s1.1 + 5, s1.2 ++ ["Put sweeps dominant (" ++ toString flow.sweep_count_puts
            ++ " vs " ++ toString flow.sweep_count_calls ++ ")"])
        else s1
      ⟨s2.1, some s2.2⟩

/-- `DarkPoolMapper.get_conviction_modifier` (dark_pool_mapper.py lines
427–474).  Python truthiness of `dp.nearest_support` makes a price of exactly
`0` falsy, hence the `≠ 0` conjunct. -/
def dpConvictionModifier (snap : Option DpSnap) (entry stop target : ℚ) :
    ConvictionMod :=
  match snap with
  | none => ⟨0, some ["No dark pool data"]⟩
  | some dp =>
      let s1 : ℤ × List String :=
        match dp.nearest_support with
        | some sup =>
            if sup ≠ 0 ∧ stop < sup ∧ sup < entry then
              if dp.support_strength = "HIGH" ∨ dp.support_strength = "VERY_HIGH" then
                (10, ["Strong DP support at $" ++ toString sup ++ " above stop"])
              else (5, ["DP support at $" ++ toString sup])
            else (0, [])
        | none => (0, [])
      let s2 : ℤ × List String :=
        match dp.nearest_resistance with
        | some res =>
            if res ≠ 0 ∧ entry < res ∧ res < target then
              if dp.resistance_strength = "HIGH" ∨ dp.resistance_strength = "VERY_HIGH" then
                (s1.1 - 10, s1.2 ++ ["Strong DP resistance at $" ++ toString res ++ " before target"])
              else (s1.1 - 5, s1.2 ++ ["DP resistance at $" ++ toString res])
            else s1
        | none => s1
      let s3 : ℤ × List String :=
        if dp.sell_volume * 2 < dp.buy_volume then
          (s2.1 + 5, s2.2 ++ ["Dark pool flow heavily buying"])
        else if dp.buy_volume * 2 < dp.sell_volume then
          (s2.1 - 5, s2.2 ++ ["Dark pool flow heavily selling"])
        else s2
      ⟨s3.1, some s3.2⟩

/-- A `DailyFingerprint` (sequence_matcher.py), without the optional
embedding vector: this embedding covers the deterministic rule-based
similarity path, the one taken when the embedding provider is unavailable. -/
structure Fingerprint where
  date : String
  gex_regime : String
  flow_bias : String
  vix_level : ℚ
  spy_change_pct : ℚ
  spy_range_pct : ℚ
  blowup_score : ℚ
  dark_pool_bias : String
  outcome_next_day : Option ℚ
deriving DecidableEq, Repr

/-- A `SequenceMatch`, restricted to the fields the conviction rule reads. -/
structure SequenceMatch where
  date : String
  similarity : ℚ
  outcome : ℚ
deriving DecidableEq, Repr

/-- Python `"BULLISH" in s`. -/
def containsBullish (s : String) : Bool :=
  containsSub "BULLISH" s

/-- Python `"BEARISH" in s`. -/
def containsBearish (s : String) : Bool :=
  containsSub "BEARISH" s

/-- `SequenceMatcher._rule_based_similarity` (lines 363–408). -/
def ruleBasedSimilarity (a b : Fingerprint) : ℚ :=
  let s1 : ℚ := if a.gex_regime = b.gex_regime then 15/10 else 0
  let s2 : ℚ := s1 +
    (if a.flow_bias = b.flow_bias then 15/10
     else if containsBullish a.flow_bias ∧ containsBullish b.flow_bias then 75/100
     else if containsBearish a.flow_bias ∧ containsBearish b.flow_bias then 75/100
     else 0)
  let s3 : ℚ := s2 +
    (if |a.vix_level - b.vix_level| < 2 then 1
     else if |a.vix_level - b.vix_level| < 5 then 1/2 else 0)
  let s4 : ℚ := s3 +
    (if (0 < a.spy_change_pct ∧ 0 < b.spy_change_pct) ∨
        (a.spy_change_pct < 0 ∧ b.spy_change_pct < 0) then 1 else 0)
  let s5 : ℚ := s4 + (if |a.spy_range_pct - b.spy_range_pct| < 1/2 then 1/2 else 0)
  let s6 : ℚ := s5 +
    (if |a.blowup_score - b.blowup_score| < 10 then 1
     else if |a.blowup_score - b.blowup_score| < 20 then 1/2 else 0)
  let s7 : ℚ := s6 + (if a.dark_pool_bias = b.dark_pool_bias then 1/2 else 0)
  s7 / 7

/-- `TOP_K_CANDIDATES = 5`. -/
def TOP_K_CANDIDATES : ℕ := 5

/-- `SequenceMatcher.find_similar_sequences` (lines 302–361), on the
rule-based similarity path (no embedding service): empty history returns `[]`;
otherwise fingerprints with a known outcome are scored, sorted by descending
similarity (stably, as Python's `sort` with `reverse=True`), and the top
`top_k` returned. -/
def findSimilarSequences (historical : List Fingerprint) (current : Fingerprint)
    (top_k : ℕ) : List SequenceMatch :=
  if historical = [] then []
  else
    let ms := historical.filterMap (fun fp =>
      match fp.outcome_next_day with
      | some outc =>
          some (⟨fp.date, pyRound 4 (ruleBasedSimilarity current fp), outc⟩ : SequenceMatch)
      | none => none)
    (ms.mergeSort (fun x y => decide (y.similarity ≤ x.similarity))).take top_k

/-- `SequenceMatcher.get_conviction_modifier` (sequence_matcher.py lines
527–585), with the fingerprint store passed explicitly. -/
def seqConvictionModifier (historical : List Fingerprint)
    (trade_direction : String) (current : Fingerprint) : ConvictionMod :=
  let similar := findSimilarSequences historical current TOP_K_CANDIDATES
  if similar = [] then ⟨0, some ["No historical pattern match"]⟩
  else
    let outcomes := similar.map (·.outcome)
    if trade_direction = "BULLISH" then
      let win_rate : ℚ :=
        if outcomes ≠ [] then (outcomes.countP (fun o => decide (0 < o)) : ℚ) / outcomes.length
        else 1/2
      if 7/10 ≤ win_rate then
        ⟨15, some ["Historical win rate: " ++ toString win_rate ++ " bullish"]⟩
      else if 6/10 ≤ win_rate then
        ⟨8, some ["Historical win rate: " ++ toString win_rate ++ " bullish"]⟩
      else if win_rate < 4/10 then
        ⟨-10, some ["Historical win rate: " ++ toString win_rate ++ " bullish (bearish history)"]⟩
      else ⟨0, some []⟩
    else if trade_direction = "BEARISH" then
      let win_rate : ℚ :=
        if outcomes ≠ [] then (outcomes.countP (fun o => decide (o < 0)) : ℚ) / outcomes.length
        else 1/2
      if 7/10 ≤ win_rate then
        ⟨15, some ["Historical win rate: " ++ toString win_rate ++ " bearish"]⟩
      else if 6/10 ≤ win_rate then
        ⟨8, some ["Historical win rate: " ++ toString win_rate ++ " bearish"]⟩
      else if win_rate < 4/10 then
        ⟨-10, some ["Historical win rate: " ++ toString win_rate ++ " bearish (bullish history)"]⟩
      else ⟨0, some []⟩
    else ⟨0, some []⟩

/-- The `current_conditions` fingerprint built by
`PredatorIntelligenceEngine.get_trade_conviction_modifiers` (lines 342–350):
absent snapshots yield `"UNKNOWN"` / `"NEUTRAL"` / zeros, `vix_level` is the
hard-coded `20.0`, and the dark-pool bias compares buy and sell volume. -/
def buildCurrentFingerprint (gex : Option GexSnap) (flow : Option FlowSnap)
    (dp : Option DpSnap) (blowupScore : Option ℤ) (today : String) :
    Fingerprint where
  date := today
  gex_regime := match gex with | some g => g.regime | none => "UNKNOWN"
  flow_bias := match flow with | some f => f.institutional_bias | none => "NEUTRAL"
  vix_level := 20
  spy_change_pct := 0
  spy_range_pct := 0
  blowup_score := match blowupScore with | some b => (b : ℚ) | none => 0
  dark_pool_bias :=
    match dp with
    | some d => if d.sell_volume < d.buy_volume then "BUY" else "SELL"
    | none => "NEUTRAL"
  outcome_next_day := none

/-- The aggregate returned by `get_trade_conviction_modifiers`: total
modifier and the concatenated reason list. -/
structure ConvictionBundle where
  total_modifier : ℤ
  reasons : List String
deriving DecidableEq, Repr

/-- `PredatorIntelligenceEngine.get_trade_conviction_modifiers` (lines
295–362): the four subsystem rules applied to the latest snapshots (absent
modeled by `none`, the sequence store by its fingerprint list), each
contributing `mod["modifier"]` to the total and `mod.get("reasons", [])` to
the reason list. -/
def getTradeConvictionModifiers (gex : Option GexSnap) (nowMinutesET : ℚ)
    (flow : Option FlowSnap) (dp : Option DpSnap)
    (historical : List Fingerprint) (blowupScore : Option ℤ) (today : String)
    (trade_direction : String) (entry stop target : ℚ) : ConvictionBundle :=
  let g := gexConvictionModifier gex nowMinutesET
  let f := flowConvictionModifier flow trade_direction
  let d := dpConvictionModifier dp entry stop target
  let current := buildCurrentFingerprint gex flow dp blowupScore today
  let s := seqConvictionModifier historical trade_direction current
  ⟨g.modifier + f.modifier + d.modifier + s.modifier,
   g.reasons.getD [] ++ f.reasons.getD [] ++ d.reasons.getD [] ++ s.reasons.getD []⟩

-- ═══════════════════════════════════════════════════════════════
--  Concrete test fixtures used by witnesses and counterexamples
-- ═══════════════════════════════════════════════════════════════

/-- A concrete tick of the eight component fetchers in their registry order:
`vix_inversion` returns raw `0.795`, all others `0`, all healthy.  With the
default weights the weighted sum is `0.159`. -/
def tickOutcomes : List (String × FetchOutcome) :=
  [("vix_inversion", some (795/1000, true)), ("flow_imbalance", some (0, true)),
   ("crypto_cascade", some (0, true)), ("premarket_gap", some (0, true)),
   ("event_proximity", some (0, true)), ("cross_asset", some (0, true)),
   ("volume_surge", some (0, true)), ("breadth", some (0, true))]

/-- A concrete feedback corpus: 20 BLOWUP-mode rows, all carrying the single
trigger `vix_inversion:0.45`, 10 winners (+1 %) and 10 losers (−1 %). -/
def feedbackCorpus : List TradeRow :=
  List.replicate 10 ⟨"BLOWUP", 1, ["vix_inversion:0.45"]⟩ ++
  List.replicate 10 ⟨"BLOWUP", -1, ["vix_inversion:0.45"]⟩

/-- A concrete expired signal: `detected_at = 0`, `ttl_hours = 1`, queried at
`now = 7200` seconds. -/
def expiredSignal : StoredSignal := ⟨"sig-1", "macro", .LOW, 1/2, 0, 1⟩

/-- A concrete live signal: `detected_at = 0`, `ttl_hours = 24`. -/
def liveSignal : StoredSignal := ⟨"sig-2", "macro", .HIGH, 3/4, 0, 24⟩

/-- A concrete store state holding one long-expired and one live signal. -/
def expiredStore : List StoredSignal := [expiredSignal, liveSignal]

-- ═══════════════════════════════════════════════════════════════
--  Theorems.  Helper lemmas first, then one theorem per claim
--  (with its witness or counterexample where required).
-- ═══════════════════════════════════════════════════════════════

/-- A `dict.get` over a map of nonnegative values with a nonnegative default
is nonnegative. -/
theorem dictGet_nonneg (l : List (String × ℚ)) (k : String) (d : ℚ)
    (hl : ∀ p ∈ l, 0 ≤ p.2) (hd : 0 ≤ d) : 0 ≤ dictGet l k d := by
  induction l with
  | nil => simpa [dictGet, List.lookup] using hd
  | cons p t ih =>
      by_cases hk : (k == p.1)
      · simpa [dictGet, List.lookup, hk] using hl p (by simp)
      · simp only [dictGet, List.lookup, hk] at ih ⊢
        exact ih (fun q hq => hl q (by simp [hq]))

/-- In-place update of an existing key: the updated list looks up to the new
entry. -/
theorem lookup_map_update (key : String) (e : CacheEntry) :
    ∀ l : Cache, (l.lookup key).isSome = true →
      (l.map (fun p => if p.1 = key then (key, e) else p)).lookup key = some e := by
  intro l
  induction l with
  | nil => intro h; simp [List.lookup] at h
  | cons p t ih =>
      obtain ⟨k, v⟩ := p
      intro h
      by_cases hk : k = key
      · subst hk
        simp [List.lookup_cons]
      · have hk' : (key == k) = false := by
          simp only [beq_eq_false_iff_ne, ne_eq]
          exact fun hh => hk hh.symm
        simp only [List.map_cons, if_neg hk, List.lookup_cons, hk']
        apply ih
        simpa [List.lookup_cons, hk'] using h

/-- Appending a fresh key at the end: lookup finds the appended entry when the
key was absent. -/
theorem lookup_append_fresh (key : String) (e : CacheEntry) :
    ∀ l : Cache, l.lookup key = none →
      (l ++ [(key, e)]).lookup key = some e := by
  intro l
  induction l with
  | nil => intro _; simp [List.lookup]
  | cons p t ih =>
      obtain ⟨k, v⟩ := p
      intro h
      have hk : (key == k) = false := by
        by_contra hc
        simp only [Bool.not_eq_false] at hc
        simp [List.lookup_cons, hc] at h
      simp only [List.lookup_cons, hk] at h
      simpa [List.cons_append, List.lookup_cons, hk] using ih h

/-- After `cache[key] = entry`, looking up `key` yields `entry`. -/
theorem cacheStore_lookup (cache : Cache) (key : String) (e : CacheEntry) :
    (cacheStore cache key e).lookup key = some e := by
  cases hc : cache.lookup key with
  | some v =>
      rw [cacheStore, if_pos (by rw [hc]; rfl)]
      exact lookup_map_update key e cache (by rw [hc]; rfl)
  | none =>
      rw [cacheStore, if_neg (by rw [hc]; simp)]
      exact lookup_append_fresh key e cache hc

/-- A cache entry younger than the window is served without a request and
without touching the cache. -/
theorem getCached_freshHit (cache : Cache) (key : String) (now : ℚ)
    (net : NetOutcome) (e : CacheEntry) (hl : cache.lookup key = some e)
    (hf : now - e.time < CACHE_TTL) :
    getCached cache key now net = ⟨some e.data, cache, false⟩ := by
  unfold getCached
  rw [hl]
  simp [hf]

/-- While the cache holds an entry for `key` and every call falls inside its
window, a run of calls issues no request and returns the cached body
throughout. -/
theorem runCalls_cached (key : String) (e : CacheEntry) :
    ∀ (calls : List (ℚ × NetOutcome)) (cache : Cache),
      cache.lookup key = some e →
      (∀ p ∈ calls, p.1 - e.time < CACHE_TTL) →
      runCalls cache key calls =
        (List.replicate calls.length (some e.data), cache, 0) := by
  intro calls
  induction calls with
  | nil => intro cache _ _; simp [runCalls]
  | cons c rest ih =>
      intro cache hl hw
      obtain ⟨t, net⟩ := c
      have hstep := getCached_freshHit cache key t net e hl (hw (t, net) (by simp))
      simp only [runCalls, hstep]
      rw [ih cache hl (fun p hp => hw p (by simp [hp]))]
      simp [List.replicate]

-- ───────────────────────────────────────────────────────────────
--  C1 : published probability vs clamp(round(100 · Σ weighted))
-- ───────────────────────────────────────────────────────────────

/-- C1 (counterexample): the scorer computes
`int(min(100, total_weighted * 100))` — truncation — not
`clamp(round(100 · Σ weighted), 0, 100)`.  At a tick whose weighted sum is
`0.159` the code publishes 15 while the claimed formula gives 16. -/
theorem C1_probability_rounding_counterexample :
    blowupProbability (buildComponents DEFAULT_WEIGHTS tickOutcomes) = 15 ∧
    specClaimedProbability (buildComponents DEFAULT_WEIGHTS tickOutcomes) = 16 ∧
    blowupProbability (buildComponents DEFAULT_WEIGHTS tickOutcomes) ≠
      specClaimedProbability (buildComponents DEFAULT_WEIGHTS tickOutcomes) := by
  refine ⟨?_, ?_, ?_⟩ <;>
    norm_num [blowupProbability, specClaimedProbability, buildComponents, tickOutcomes,
      DEFAULT_WEIGHTS, buildComponent, dictGet, totalWeighted, pyInt, round_eq, List.lookup]

/-- C1 (amended): for every scorer tick whose component raw values and weights
are nonnegative, the published blowup probability equals
`min(100, ⌊100 · Σ weighted⌋)` — the lower clamp at 0 being automatic — and in
particular it is an integer in `[0, 100]`. -/
theorem C1_probability_truncation (weights : List (String × ℚ))
    (outcomes : List (String × FetchOutcome))
    (hw : ∀ p ∈ weights, 0 ≤ p.2)
    (hr : ∀ p ∈ outcomes, ∀ raw h, p.2 = some (raw, h) → 0 ≤ raw) :
    blowupProbability (buildComponents weights outcomes) =
      min 100 ⌊totalWeighted (buildComponents weights outcomes) * 100⌋ ∧
    0 ≤ blowupProbability (buildComponents weights outcomes) ∧
    blowupProbability (buildComponents weights outcomes) ≤ 100 := by
  have hdef : ∀ q ∈ DEFAULT_WEIGHTS, 0 ≤ q.2 := by
    intro q hq
    simp only [DEFAULT_WEIGHTS, List.mem_cons, List.not_mem_nil, or_false] at hq
    rcases hq with h|h|h|h|h|h|h|h <;> subst h <;> norm_num
  have h0 : 0 ≤ totalWeighted (buildComponents weights outcomes) := by
    apply List.sum_nonneg
    intro a ha
    simp only [buildComponents, List.map_map, List.mem_map] at ha
    obtain ⟨p, hp, rfl⟩ := ha
    simp only [Function.comp_apply]
    cases hpo : p.2 with
    | none => simp [buildComponent, hpo]
    | some rb =>
        obtain ⟨raw, hb⟩ := rb
        simp only [buildComponent, hpo]
        exact mul_nonneg (hr p hp raw hb hpo)
          (dictGet_nonneg weights p.1 _ hw
            (dictGet_nonneg DEFAULT_WEIGHTS p.1 _ hdef (by norm_num)))
  have hmin : 0 ≤ min (100 : ℚ) (totalWeighted (buildComponents weights outcomes) * 100) :=
    le_min (by norm_num) (mul_nonneg h0 (by norm_num))
  have hpy : blowupProbability (buildComponents weights outcomes) =
      ⌊min (100 : ℚ) (totalWeighted (buildComponents weights outcomes) * 100)⌋ := by
    rw [blowupProbability, pyInt, if_pos hmin]
  refine ⟨?_, ?_, ?_⟩
  · have hmm : ⌊min (100 : ℚ) (totalWeighted (buildComponents weights outcomes) * 100)⌋ =
        min ⌊(100 : ℚ)⌋ ⌊totalWeighted (buildComponents weights outcomes) * 100⌋ :=
      Int.floor_mono.map_min
    rw [hpy, hmm]
    norm_num
  · rw [hpy]
    exact Int.floor_nonneg.mpr hmin
  · rw [hpy]
    calc ⌊min (100 : ℚ) (totalWeighted (buildComponents weights outcomes) * 100)⌋
        ≤ ⌊(100 : ℚ)⌋ := Int.floor_mono (min_le_left _ _)
      _ = 100 := by norm_num

/-- C1 (witness): the amended statement applied to the concrete tick
`tickOutcomes` under the default weights. -/
theorem C1_probability_truncation_witness :
    blowupProbability (buildComponents DEFAULT_WEIGHTS tickOutcomes) =
      min 100 ⌊totalWeighted (buildComponents DEFAULT_WEIGHTS tickOutcomes) * 100⌋ ∧
    0 ≤ blowupProbability (buildComponents DEFAULT_WEIGHTS tickOutcomes) ∧
    blowupProbability (buildComponents DEFAULT_WEIGHTS tickOutcomes) ≤ 100 :=
  C1_probability_truncation DEFAULT_WEIGHTS tickOutcomes
    (by
      intro p hp
      simp only [DEFAULT_WEIGHTS, List.mem_cons, List.not_mem_nil, or_false] at hp
      rcases hp with h|h|h|h|h|h|h|h <;> subst h <;> norm_num)
    (by
      intro p hp raw b hb
      simp only [tickOutcomes, List.mem_cons, List.not_mem_nil, or_false] at hp
      rcases hp with h|h|h|h|h|h|h|h <;> subst h <;>
        (simp only [Option.some_inj, Prod.mk.injEq] at hb; rw [← hb.1]; try norm_num))

-- ───────────────────────────────────────────────────────────────
--  C2 : recommendation thresholds
-- ───────────────────────────────────────────────────────────────

/-- C2: for every scorer tick, the recommendation is NO_TRADE when
`confidence < 0.5`; otherwise SCALP_ONLY when `probability < 50`, STRADDLE
when `50 ≤ probability < 70`, and for `probability ≥ 70` it is
DIRECTIONAL_PUT under BEARISH, DIRECTIONAL_CALL under BULLISH, and STRADDLE
under NEUTRAL — in particular a score of exactly 70 with confident
non-neutral direction is DIRECTIONAL. -/
theorem C2_recommendation_thresholds (score : ℤ) (d : Direction) (conf : ℚ) :
    (conf < 1/2 → determineRecommendation score d conf = .NO_TRADE) ∧
    (1/2 ≤ conf → score < 50 →
      determineRecommendation score d conf = .SCALP_ONLY) ∧
    (1/2 ≤ conf → 50 ≤ score → score < 70 →
      determineRecommendation score d conf = .STRADDLE) ∧
    (1/2 ≤ conf → 70 ≤ score →
      determineRecommendation score d conf =
        (match d with
          | .BEARISH => .DIRECTIONAL_PUT
          | .BULLISH => .DIRECTIONAL_CALL
          | .NEUTRAL => .STRADDLE)) := by
  unfold determineRecommendation THRESHOLDS_calm THRESHOLDS_elevated THRESHOLDS_high
  refine ⟨fun h => ?_, fun h h1 => ?_, fun h h1 h2 => ?_, fun h h1 => ?_⟩ <;>
    split_ifs <;> first | rfl | omega | linarith

/-- C2 (witness): concrete instances of every branch, including score exactly
70 with a confident BEARISH direction. -/
theorem C2_recommendation_thresholds_witness :
    determineRecommendation 80 .NEUTRAL (1/4) = .NO_TRADE ∧
    determineRecommendation 40 .NEUTRAL 1 = .SCALP_ONLY ∧
    determineRecommendation 60 .NEUTRAL 1 = .STRADDLE ∧
    determineRecommendation 70 .BEARISH 1 = .DIRECTIONAL_PUT ∧
    determineRecommendation 70 .BULLISH 1 = .DIRECTIONAL_CALL ∧
    determineRecommendation 70 .NEUTRAL 1 = .STRADDLE :=
  ⟨(C2_recommendation_thresholds 80 .NEUTRAL (1/4)).1 (by norm_num),
   (C2_recommendation_thresholds 40 .NEUTRAL 1).2.1 (by norm_num) (by norm_num),
   (C2_recommendation_thresholds 60 .NEUTRAL 1).2.2.1 (by norm_num) (by norm_num) (by norm_num),
   (C2_recommendation_thresholds 70 .BEARISH 1).2.2.2 (by norm_num) (by norm_num),
   (C2_recommendation_thresholds 70 .BULLISH 1).2.2.2 (by norm_num) (by norm_num),
   (C2_recommendation_thresholds 70 .NEUTRAL 1).2.2.2 (by norm_num) (by norm_num)⟩

-- ───────────────────────────────────────────────────────────────
--  C9 : VIX boundary values
-- ───────────────────────────────────────────────────────────────

/-- C9 (counterexample): with healthy input and zero daily change, a VIX close
of exactly 20.0 yields raw 0 — not the claimed 0.15 — and a close of exactly
22.0 yields 0.15 — not the claimed 0.3 (the piecewise thresholds are
strict). -/
theorem C9_vix_boundary_counterexample :
    vixInversionScore 20 20 = 0 ∧ vixInversionScore 20 20 ≠ 15/100 ∧
    vixInversionScore 22 22 = 15/100 ∧ vixInversionScore 22 22 ≠ 3/10 := by
  refine ⟨?_, ?_, ?_, ?_⟩ <;> norm_num [vixInversionScore]

/-- C9 (amended): under healthy input data and non-positive daily change
(open at least the close), a VIX close of exactly 20.0 yields raw = 0 and a
close of exactly 22.0 yields raw = 0.15: both spec thresholds are strict
lower bounds. -/
theorem C9_vix_boundary (o o' : ℚ) (h : 20 ≤ o) (h' : 22 ≤ o') :
    vixInversionScore o 20 = 0 ∧ vixInversionScore o' 22 = 15/100 := by
  constructor
  · have ho : (0 : ℚ) < o := by linarith
    have hch : (20 - o) / o ≤ 0 :=
      div_nonpos_iff.mpr (Or.inr ⟨by linarith, ho.le⟩)
    simp only [vixInversionScore, if_pos ho]
    norm_num
    split_ifs <;> linarith
  · have ho : (0 : ℚ) < o' := by linarith
    have hch : (22 - o') / o' ≤ 0 :=
      div_nonpos_iff.mpr (Or.inr ⟨by linarith, ho.le⟩)
    simp only [vixInversionScore, if_pos ho]
    norm_num
    split_ifs <;> linarith

/-- C9 (witness): the amended statement at open = close (zero change). -/
theorem C9_vix_boundary_witness :
    vixInversionScore 20 20 = 0 ∧ vixInversionScore 22 22 = 15/100 :=
  C9_vix_boundary 20 22 (by norm_num) (by norm_num)

-- ───────────────────────────────────────────────────────────────
--  C3 : conviction with empty subsystem snapshots
-- ───────────────────────────────────────────────────────────────

/-- C3 (counterexample): with all four subsystem snapshots absent the
aggregated conviction is 0 but the reason list is NOT empty — the flow,
dark-pool and sequence rules each contribute a "no data" placeholder reason,
so the claimed conjunction fails at this concrete call. -/
theorem C3_empty_conviction_counterexample :
    ¬ ((getTradeConvictionModifiers none 600 none none [] none "2026-02-25"
          "BULLISH" 100 99 102).total_modifier = 0 ∧
       (getTradeConvictionModifiers none 600 none none [] none "2026-02-25"
          "BULLISH" 100 99 102).reasons = []) := by
  intro hc
  have h2 := hc.2
  norm_num [getTradeConvictionModifiers, gexConvictionModifier, flowConvictionModifier,
    dpConvictionModifier, seqConvictionModifier, findSimilarSequences,
    buildCurrentFingerprint] at h2
  exact List.cons_ne_nil _ _ h2

/-- C3 (amended): for every trade direction and every price triple, the
conviction call with all four subsystem snapshots absent (and an empty
sequence store) returns a total modifier of exactly 0, and its reason list
consists exactly of the three no-data placeholders
`["No flow data", "No dark pool data", "No historical pattern match"]`
(the absent-GEX branch returns a `"reason"` key the aggregator ignores). -/
theorem C3_empty_conviction (trade_direction today : String)
    (entry stop target nowMinutesET : ℚ) (blowupScore : Option ℤ) :
    getTradeConvictionModifiers none nowMinutesET none none [] blowupScore today
        trade_direction entry stop target =
      ⟨0, ["No flow data", "No dark pool data", "No historical pattern match"]⟩ := by
  norm_num [getTradeConvictionModifiers, gexConvictionModifier, flowConvictionModifier,
    dpConvictionModifier, seqConvictionModifier, findSimilarSequences,
    buildCurrentFingerprint]

-- ───────────────────────────────────────────────────────────────
--  C4 : fetch-layer degradation on non-200 responses
-- ───────────────────────────────────────────────────────────────

/-- C4 (counterexample): on a non-200, non-429 status (here 500) the fetch
layer returns absent even though a cached body for the key exists — against
the claim that any non-200 status falls back to the cached body. -/
theorem C4_degraded_fetch_counterexample :
    (getCached [("k", ⟨0, "old"⟩)] "k" 100 (.response 500 none)).result = none ∧
    (List.lookup "k" [("k", (⟨0, "old"⟩ : CacheEntry))]).map (·.data) = some "old" := by
  constructor
  · norm_num [getCached, CACHE_TTL, List.lookup_cons]
  · simp [List.lookup_cons]

/-- C4 (amended): when no fresh cache entry short-circuits the call, HTTP 429
returns the cached body if one exists (however stale) and absent otherwise; a
transport failure (or a 200 whose body fails to parse) likewise returns the
cached body if present; but any other non-200 status returns absent even when
a cached body exists.  The embedded call is a total function — it never
raises. -/
theorem C4_degraded_fetch (cache : Cache) (key : String) (now : ℚ)
    (hstale : ∀ e, cache.lookup key = some e → CACHE_TTL ≤ now - e.time) :
    (∀ b, (getCached cache key now (.response 429 b)).result =
        (cache.lookup key).map (·.data)) ∧
    (getCached cache key now .failure).result = (cache.lookup key).map (·.data) ∧
    (getCached cache key now (.response 200 none)).result =
        (cache.lookup key).map (·.data) ∧
    (∀ s b, s ≠ 200 → s ≠ 429 →
        (getCached cache key now (.response s b)).result = none) := by
  cases hc : cache.lookup key with
  | none =>
      refine ⟨fun b => ?_, ?_, ?_, fun s b hs1 hs2 => ?_⟩
      · simp [getCached, hc]
      · simp [getCached, hc]
      · simp [getCached, hc]
      · simp [getCached, hc, hs1, hs2]
  | some e =>
      have hf : ¬ (now - e.time < CACHE_TTL) := not_lt.mpr (hstale e hc)
      refine ⟨fun b => ?_, ?_, ?_, fun s b hs1 hs2 => ?_⟩
      · simp [getCached, hc, hf]
      · simp [getCached, hc, hf]
      · simp [getCached, hc, hf]
      · simp [getCached, hc, hf, hs1, hs2]

/-- C4 (witness): the amended statement at a concrete stale cache, evaluated
for a 429 and a transport failure. -/
theorem C4_degraded_fetch_witness :
    (getCached [("k", ⟨0, "old"⟩)] "k" 100 (.response 429 none)).result = some "old" ∧
    (getCached [("k", ⟨0, "old"⟩)] "k" 100 .failure).result = some "old" ∧
    (getCached [("k", ⟨0, "old"⟩)] "k" 100 (.response 500 none)).result = none := by
  have h := C4_degraded_fetch [("k", ⟨0, "old"⟩)] "k" 100
    (by
      intro e he
      simp only [List.lookup_cons, beq_self_eq_true] at he
      rw [← Option.some_inj.mp he]
      norm_num [CACHE_TTL])
  refine ⟨?_, ?_, ?_⟩
  · rw [h.1 none]; simp [List.lookup_cons]
  · rw [h.2.1]; simp [List.lookup_cons]
  · exact h.2.2.2 500 none (by norm_num) (by norm_num)

-- ───────────────────────────────────────────────────────────────
--  C5 : cache coalescing under repeated identical requests
-- ───────────────────────────────────────────────────────────────

/-- C5: starting from a cache without the key, a run of identical calls whose
first call receives HTTP 200 and whose remaining calls all fall within the
60-second window of the first issues exactly one network request, and every
call returns the identical body (the 100-requests-in-10-seconds burst is the
instance with 99 remaining calls). -/
theorem C5_cache_burst (cache : Cache) (key body : String) (t0 : ℚ)
    (rest : List (ℚ × NetOutcome))
    (hmiss : cache.lookup key = none)
    (hwin : ∀ p ∈ rest, t0 ≤ p.1 ∧ p.1 - t0 < CACHE_TTL) :
    runCalls cache key ((t0, .response 200 (some body)) :: rest) =
      (List.replicate (rest.length + 1) (some body),
       cacheStore cache key ⟨t0, body⟩, 1) := by
  have hstep : getCached cache key t0 (.response 200 (some body)) =
      ⟨some body, cacheStore cache key ⟨t0, body⟩, true⟩ := by
    unfold getCached
    rw [hmiss]
    rfl
  simp only [runCalls, hstep]
  rw [runCalls_cached key ⟨t0, body⟩ rest (cacheStore cache key ⟨t0, body⟩)
    (cacheStore_lookup cache key ⟨t0, body⟩)
    (fun p hp => (hwin p hp).2)]
  simp [List.replicate_succ]

/-- C5 (witness): a concrete three-call burst inside ten seconds — one
request, byte-identical bodies throughout. -/
theorem C5_cache_burst_witness :
    runCalls [] "u" [(0, .response 200 (some "b")), (5, .failure),
        (9, .response 404 none)] =
      ([some "b", some "b", some "b"], [("u", ⟨0, "b"⟩)], 1) := by
  have h := C5_cache_burst [] "u" "b" 0 [(5, .failure), (9, .response 404 none)]
    (by simp [List.lookup])
    (by
      intro p hp
      rcases List.mem_cons.mp hp with h1 | h1
      · rw [h1]; norm_num [CACHE_TTL]
      · simp only [List.mem_singleton] at h1
        rw [h1]; norm_num [CACHE_TTL])
  rw [h]
  simp [cacheStore, List.lookup, List.replicate]

-- ───────────────────────────────────────────────────────────────
--  C6 : store queries and TTL expiry
-- ───────────────────────────────────────────────────────────────

/-- C6 (counterexample): `get_active_signals` applies no expiry filter, so a
signal whose TTL elapsed after the last scan is still returned: a signal with
`detected_at = 0`, `ttl_hours = 1`, queried at `now = 7200` s, is expired yet
present in the result. -/
theorem C6_expired_signal_returned :
    isExpired 7200 expiredSignal = true ∧
    expiredSignal ∈ getActiveSignals expiredStore "" "" := by
  constructor
  · norm_num [isExpired, expiredSignal]
  · simp [getActiveSignals, expiredStore]

/-- C6 (amended): the store guarantees freshness only as of the last mutation:
every signal returned by a query against a store pruned at time `now` was
unexpired at that prune time (the query itself performs no expiry check, so a
signal may be expired at query time if the clock advanced since the scan). -/
theorem C6_unexpired_at_last_scan (now : ℚ) (sigs : List StoredSignal)
    (cat mp : String) (s : StoredSignal)
    (hs : s ∈ getActiveSignals (pruneExpired now sigs) cat mp) :
    isExpired now s = false := by
  have h1 : s ∈ pruneExpired now sigs := by
    unfold getActiveSignals at hs
    split_ifs at hs with h2 h3 h4
    · exact (List.mem_filter.mp ((List.mem_filter.mp hs).1)).1
    · exact (List.mem_filter.mp hs).1
    · exact (List.mem_filter.mp hs).1
    · exact hs
  have h2 := (List.mem_filter.mp h1).2
  simpa using h2

/-- C6 (witness): the amended statement at a store pruned at `now = 7200`
holding one live signal. -/
theorem C6_unexpired_at_last_scan_witness :
    isExpired 7200 liveSignal = false :=
  C6_unexpired_at_last_scan 7200 expiredStore "" "" liveSignal
    (by
      norm_num [getActiveSignals, pruneExpired, expiredStore, isExpired,
        expiredSignal, liveSignal])

-- ───────────────────────────────────────────────────────────────
--  C7 : connector error discipline
-- ───────────────────────────────────────────────────────────────

/-- C7 (counterexample): a successful fetch does NOT reset the connector's
`error_count` to 0 — a connector at `error_count = 2` that fetches
successfully stays at 2 (`BaseConnector._get` has no reset, unlike the
scorer's `ComponentFetcher._get`). -/
theorem C7_no_error_reset_counterexample :
    connectorGet 2 (.response 200 (some "ok")) = (some "ok", 2) ∧ (2 : ℕ) ≠ 0 := by
  constructor
  · rfl
  · norm_num

/-- C7 (amended): a transport failure or a 200-response whose body fails to
parse yields no data and increments `error_count` by exactly 1; an exception
escaping `fetch_signals` is caught by the scanner, which increments
`error_count` and adds no signals (the sweep is a total function — failures
never propagate); a successful fetch returns the body and leaves
`error_count` unchanged (it is never reset to 0). -/
theorem C7_error_discipline (ec : ℕ) (data : String) (store : List StoredSignal) :
    connectorGet ec .failure = (none, ec + 1) ∧
    connectorGet ec (.response 200 none) = (none, ec + 1) ∧
    connectorGet ec (.response 200 (some data)) = (some data, ec) ∧
    scanConnectorStep store ec (.error ()) = ([], store, ec + 1) :=
  ⟨rfl, rfl, rfl, rfl⟩

-- ───────────────────────────────────────────────────────────────
--  C8 : calibration idempotence
-- ───────────────────────────────────────────────────────────────

/-- The concrete corpus is all BLOWUP-mode, so the mode filter keeps it
whole. -/
theorem feedbackCorpus_filter :
    feedbackCorpus.filter (fun t => t.mode == "BLOWUP") = feedbackCorpus := by
  norm_num +decide [feedbackCorpus, List.replicate]

/-- Per-trigger F1 for the concrete corpus: precision 1/2, recall 1,
`round(2/3, 3) = 0.667`. -/
theorem triggerF1s_feedbackCorpus :
    triggerF1s feedbackCorpus = [("vix_inversion", 667/1000)] := by
  norm_num +decide [triggerF1s, triggerStats, feedbackCorpus, List.replicate, bumpStat,
    triggerName, List.takeWhile, List.lookup, pyRound, round_eq,
    List.filterMap_cons, List.filterMap_nil]

/-- First run: `vix_inversion` is set to 1.0 and the map renormalized by
1.8. -/
theorem calibNewWeights_run1 : calibNewWeights DEFAULT_WEIGHTS feedbackCorpus =
    [("vix_inversion", 556/1000), ("flow_imbalance", 111/1000), ("crypto_cascade", 56/1000),
     ("premarket_gap", 56/1000), ("event_proximity", 83/1000), ("cross_asset", 56/1000),
     ("volume_surge", 56/1000), ("breadth", 28/1000)] := by
  unfold calibNewWeights
  rw [triggerF1s_feedbackCorpus]
  simp only [DEFAULT_WEIGHTS, List.map, List.lookup, String.reduceBEq]
  norm_num [pyRound, round_eq]

/-- First calibration run over the concrete corpus: total weight change
0.71 > 0.1, so the run persists. -/
theorem calibrate_run1 : calibrate DEFAULT_WEIGHTS feedbackCorpus = some
    ⟨[("vix_inversion", 556/1000), ("flow_imbalance", 111/1000), ("crypto_cascade", 56/1000),
      ("premarket_gap", 56/1000), ("event_proximity", 83/1000), ("cross_asset", 56/1000),
      ("volume_surge", 56/1000), ("breadth", 28/1000)], true⟩ := by
  rw [calibrate, feedbackCorpus_filter]
  have hlen : feedbackCorpus.length = 20 := by norm_num [feedbackCorpus]
  simp only [hlen, calibNewWeights_run1, MIN_TRADES_FOR_CALIBRATION]
  simp only [dictGet, DEFAULT_WEIGHTS, List.map, List.lookup, String.reduceBEq,
    Option.getD_some]
  norm_num [abs_of_nonneg]

/-- The calibrator state after the persisting first run. -/
theorem calibratePost_run1 : calibratePost DEFAULT_WEIGHTS feedbackCorpus =
    [("vix_inversion", 556/1000), ("flow_imbalance", 111/1000), ("crypto_cascade", 56/1000),
     ("premarket_gap", 56/1000), ("event_proximity", 83/1000), ("cross_asset", 56/1000),
     ("volume_surge", 56/1000), ("breadth", 28/1000)] := by
  rw [calibratePost, calibrate_run1]
  simp

/-- Second run from the persisted weights: `vix_inversion` is again set to
1.0 but the untriggered keys now renormalize against 1.446, not 1.8. -/
theorem calibNewWeights_run2 : calibNewWeights
    [("vix_inversion", 556/1000), ("flow_imbalance", 111/1000), ("crypto_cascade", 56/1000),
     ("premarket_gap", 56/1000), ("event_proximity", 83/1000), ("cross_asset", 56/1000),
     ("volume_surge", 56/1000), ("breadth", 28/1000)] feedbackCorpus =
    [("vix_inversion", 692/1000), ("flow_imbalance", 77/1000), ("crypto_cascade", 39/1000),
     ("premarket_gap", 39/1000), ("event_proximity", 57/1000), ("cross_asset", 39/1000),
     ("volume_surge", 39/1000), ("breadth", 19/1000)] := by
  unfold calibNewWeights
  rw [triggerF1s_feedbackCorpus]
  simp only [List.map, List.lookup, String.reduceBEq]
  norm_num [pyRound, round_eq]

/-- The second calibration run over the same corpus. -/
theorem calibrate_run2 : calibrate
    [("vix_inversion", 556/1000), ("flow_imbalance", 111/1000), ("crypto_cascade", 56/1000),
     ("premarket_gap", 56/1000), ("event_proximity", 83/1000), ("cross_asset", 56/1000),
     ("volume_surge", 56/1000), ("breadth", 28/1000)] feedbackCorpus = some
    ⟨[("vix_inversion", 692/1000), ("flow_imbalance", 77/1000), ("crypto_cascade", 39/1000),
      ("premarket_gap", 39/1000), ("event_proximity", 57/1000), ("cross_asset", 39/1000),
      ("volume_surge", 39/1000), ("breadth", 19/1000)], true⟩ := by
  rw [calibrate, feedbackCorpus_filter]
  have hlen : feedbackCorpus.length = 20 := by norm_num [feedbackCorpus]
  simp only [hlen, calibNewWeights_run2, MIN_TRADES_FOR_CALIBRATION]
  simp only [dictGet, List.map, List.lookup, String.reduceBEq, Option.getD_some]
  norm_num [abs_of_nonneg]

/-- C8 (counterexample): over the unchanged 20-row corpus, the first run
persists its weights, and the second run then produces a different
`new_weights` map — calibration is not idempotent once it persists, because
untriggered components are renormalized against the freshly written
weights. -/
theorem C8_calibrate_not_idempotent :
    (calibrate DEFAULT_WEIGHTS feedbackCorpus).map (·.new_weights) ≠
    (calibrate (calibratePost DEFAULT_WEIGHTS feedbackCorpus)
        feedbackCorpus).map (·.new_weights) := by
  rw [calibratePost_run1, calibrate_run1, calibrate_run2]
  norm_num

/-- C8 (amended): running `calibrate` twice over the same unchanged corpus
produces identical results whenever the first run does not persist (it is
skipped by the 20-row gate, or its total weight change stays within 0.1);
a persisting first run rewrites the stored weights, and the second run's
renormalization of untriggered components can then differ. -/
theorem C8_calibrate_stable_without_persist (w : List (String × ℚ))
    (rows : List TradeRow)
    (h : ∀ o, calibrate w rows = some o → o.persisted = false) :
    calibrate (calibratePost w rows) rows = calibrate w rows := by
  have hpost : calibratePost w rows = w := by
    unfold calibratePost
    cases hc : calibrate w rows with
    | none => rfl
    | some o => simp [h o hc]
  rw [hpost]

/-- C8 (witness): two runs on an empty corpus (below the 20-row gate) agree. -/
theorem C8_calibrate_stable_without_persist_witness :
    calibrate (calibratePost DEFAULT_WEIGHTS []) [] = calibrate DEFAULT_WEIGHTS [] :=
  C8_calibrate_stable_without_persist DEFAULT_WEIGHTS []
    (by
      intro o ho
      rw [show calibrate DEFAULT_WEIGHTS ([] : List TradeRow) = none by
        norm_num [calibrate, MIN_TRADES_FOR_CALIBRATION]] at ho
      cases ho)

-- ───────────────────────────────────────────────────────────────
--  C10 : unknown min_priority falls back to the LOW threshold
-- ───────────────────────────────────────────────────────────────

/-- C10: a `min_priority` string that is none of CRITICAL/HIGH/MEDIUM/LOW
falls back to level 3, so the priority filter passes every signal and the
query result equals the one with no priority filter (subject only to the
category filter). -/
theorem C10_unknown_min_priority (sigs : List StoredSignal) (cat mp : String)
    (h : mp ∉ ["CRITICAL", "HIGH", "MEDIUM", "LOW"]) :
    getActiveSignals sigs cat mp = getActiveSignals sigs cat "" := by
  unfold getActiveSignals
  rw [if_neg (by simp : ¬ ("" : String) ≠ "")]
  by_cases hmp : mp = ""
  · rw [if_neg (by simp [hmp] : ¬ mp ≠ "")]
  · rw [if_pos hmp]
    have h1 : (mp == "CRITICAL") = false := by
      simp only [List.mem_cons, List.not_mem_nil, or_false, not_or] at h
      simp [h.1]
    have h2 : (mp == "HIGH") = false := by
      simp only [List.mem_cons, List.not_mem_nil, or_false, not_or] at h
      simp [h.2.1]
    have h3 : (mp == "MEDIUM") = false := by
      simp only [List.mem_cons, List.not_mem_nil, or_false, not_or] at h
      simp [h.2.2.1]
    have h4 : (mp == "LOW") = false := by
      simp only [List.mem_cons, List.not_mem_nil, or_false, not_or] at h
      simp [h.2.2.2]
    have hlvl : priorityLevelOfString mp = 3 := by
      simp [priorityLevelOfString, h1, h2, h3, h4]
    rw [hlvl]
    apply List.filter_eq_self.mpr
    intro s _
    cases hp : s.priority <;> simp [priorityLevel, hp]

/-- C10 (witness): a concrete store queried with the unknown priority string
`"BOGUS"` returns the unfiltered list. -/
theorem C10_unknown_min_priority_witness :
    getActiveSignals expiredStore "" "BOGUS" = getActiveSignals expiredStore "" "" :=
  C10_unknown_min_priority expiredStore "" "BOGUS" (by simp)

end Hydra
